import Mathlib

/-!
Shallow embedding of the `tapo` repository's color-light parameter builder
(`src/tapo/src/requests/set_device_info/color_light.rs`) and default-state
response model (`src/tapo/src/responses/device_info_result/default_state.rs`).

Rust machine integers `u8`/`u16` are modelled as `Nat`; no arithmetic in the
source can overflow (the code only compares values), so no modular reduction
is needed.  The fallible `validate` is modelled with `Except`; the terminal
`send` is modelled by a `SendResult` that records whether the capability's
`set_device_info` operation was invoked (and with which payload) or whether a
validation error was returned before any network effect.
-/

namespace Tapo

/-- The `Error::Validation` variant of the crate's error type, the only
variant `validate` can produce: a field name and a human-readable message. -/
inductive Error where
  | Validation (field : String) (message : String)
deriving DecidableEq

/-- The builder's accumulated state: the five optional device-state fields of
`ColorLightSetDeviceInfoParams` (the `client` reference is modelled at the
`send` level, not stored). -/
structure ColorLightSetDeviceInfoParams where
  device_on : Option Bool
  brightness : Option Nat
  hue : Option Nat
  saturation : Option Nat
  color_temperature : Option Nat
deriving DecidableEq

namespace ColorLightSetDeviceInfoParams

/-- `ColorLightSetDeviceInfoParams::new`: every field starts out unset. -/
def new : ColorLightSetDeviceInfoParams :=
  { device_on := none, brightness := none, hue := none, saturation := none,
    color_temperature := none }

/-- `ColorLightSetDeviceInfoParams::on` (named `turn_on` here because `on` is
a reserved token in Lean). -/
def turn_on (p : ColorLightSetDeviceInfoParams) : ColorLightSetDeviceInfoParams :=
  { p with device_on := some true }

/-- `ColorLightSetDeviceInfoParams::off` (named `turn_off` for symmetry with
`turn_on`). -/
def turn_off (p : ColorLightSetDeviceInfoParams) : ColorLightSetDeviceInfoParams :=
  { p with device_on := some false }

/-- `ColorLightSetDeviceInfoParams::brightness` (named `set_brightness` here
because Lean reserves `brightness` for the field projection). -/
def set_brightness (p : ColorLightSetDeviceInfoParams) (value : Nat) :
    ColorLightSetDeviceInfoParams :=
  { p with brightness := some value }

/-- `ColorLightSetDeviceInfoParams::hue_saturation`: sets `hue` and
`saturation` directly and forces `color_temperature = 0`. -/
def set_hue_saturation (p : ColorLightSetDeviceInfoParams) (hue : Nat)
    (saturation : Nat) : ColorLightSetDeviceInfoParams :=
  { p with hue := some hue, saturation := some saturation,
           color_temperature := some 0 }

/-- `ColorLightSetDeviceInfoParams::color_temperature` (named
`set_color_temperature` here because Lean reserves `color_temperature` for the
field projection): sets the temperature and forces `hue = 0`,
`saturation = 100`. -/
def set_color_temperature (p : ColorLightSetDeviceInfoParams) (value : Nat) :
    ColorLightSetDeviceInfoParams :=
  { p with hue := some 0, saturation := some 100,
           color_temperature := some value }

/-- `validate`, color-temperature step (source lines 156-166): if
`color_temperature` is set, and `hue.unwrap_or_default() == 0` and
`saturation.unwrap_or(100) == 100`, the value must lie in `2500..=6500`. -/
def validateColorTemperature (p : ColorLightSetDeviceInfoParams) :
    Except Error Unit :=
  match p.color_temperature with
  | some color_temperature =>
      if p.hue.getD 0 = 0 ∧ p.saturation.getD 100 = 100 ∧
          ¬(2500 ≤ color_temperature ∧ color_temperature ≤ 6500) then
        Except.error
          (Error.Validation "color_temperature" "must be between 2500 and 6500")
      else Except.ok ()
  | none => Except.ok ()

/-- `validate`, saturation step (source lines 147-154): if `saturation` is
set, it must lie in `1..=100`, unconditionally. -/
def validateSaturation (p : ColorLightSetDeviceInfoParams) :
    Except Error Unit :=
  match p.saturation with
  | some saturation =>
      if ¬(1 ≤ saturation ∧ saturation ≤ 100) then
        Except.error (Error.Validation "saturation" "must be between 1 and 100")
      else validateColorTemperature p
  | none => validateColorTemperature p

/-- `validate`, hue step (source lines 138-145): if `hue` is set and
`color_temperature.unwrap_or_default() == 0`, the hue must lie in `1..=360`. -/
def validateHue (p : ColorLightSetDeviceInfoParams) : Except Error Unit :=
  match p.hue with
  | some hue =>
      if p.color_temperature.getD 0 = 0 ∧ ¬(1 ≤ hue ∧ hue ≤ 360) then
        Except.error (Error.Validation "hue" "must be between 1 and 360")
      else validateSaturation p
  | none => validateSaturation p

/-- `validate`, brightness step (source lines 129-136): if `brightness` is
set, it must lie in `1..=100`. -/
def validateBrightness (p : ColorLightSetDeviceInfoParams) :
    Except Error Unit :=
  match p.brightness with
  | some brightness =>
      if ¬(1 ≤ brightness ∧ brightness ≤ 100) then
        Except.error (Error.Validation "brightness" "must be between 1 and 100")
      else validateHue p
  | none => validateHue p

/-- `ColorLightSetDeviceInfoParams::validate` (source lines 116-169): the
emptiness check followed by the four early-return range checks. -/
def validate (p : ColorLightSetDeviceInfoParams) : Except Error Unit :=
  if p.device_on = none ∧ p.brightness = none ∧ p.hue = none ∧
      p.saturation = none ∧ p.color_temperature = none then
    Except.error
      (Error.Validation "DeviceInfoParams" "requires at least one property")
  else validateBrightness p

end ColorLightSetDeviceInfoParams

/-- A JSON scalar as it appears in the submit payload. -/
inductive JsonValue where
  | bool (b : Bool)
  | num (n : Nat)
deriving DecidableEq

/-- One optional serde field: present under `key` when the option is `some`,
omitted entirely when `none` (`skip_serializing_if = "Option::is_none"`). -/
def optField {α : Type} (key : String) (f : α → JsonValue) :
    Option α → List (String × JsonValue)
  | some v => [(key, f v)]
  | none => []

namespace ColorLightSetDeviceInfoParams

/-- The serde `Serialize` derive on `ColorLightSetDeviceInfoParams`: fields in
declaration order, each skipped when `None`, with `color_temperature` renamed
to `color_temp` (`#[serde(rename = "color_temp")]`) and `client` skipped. -/
def serializeFields (p : ColorLightSetDeviceInfoParams) :
    List (String × JsonValue) :=
  optField "device_on" JsonValue.bool p.device_on ++
  optField "brightness" JsonValue.num p.brightness ++
  optField "hue" JsonValue.num p.hue ++
  optField "saturation" JsonValue.num p.saturation ++
  optField "color_temp" JsonValue.num p.color_temperature

end ColorLightSetDeviceInfoParams

/-- Outcome of `send`: either validation failed and the error was returned
with the capability never invoked, or the capability's `set_device_info` was
invoked with the serialized payload. -/
inductive SendResult where
  | validationError (e : Error)
  | capabilityCalled (payload : List (String × JsonValue))
deriving DecidableEq

namespace ColorLightSetDeviceInfoParams

/-- `ColorLightSetDeviceInfoParams::send` (source lines 97-101):
`self.validate()?` then `serde_json::to_value(&self)?` then
`self.client.set_device_info(json)`.  The capability call itself is external;
`SendResult.capabilityCalled` records that it was reached and with which
payload. -/
def send (p : ColorLightSetDeviceInfoParams) : SendResult :=
  match p.validate with
  | Except.error e => SendResult.validationError e
  | Except.ok _ => SendResult.capabilityCalled p.serializeFields

end ColorLightSetDeviceInfoParams

/-- Modelled from the spec: the closed enumeration `Color` lives in
`crate::requests::color`, which is not among the given sources; we model
colors abstractly by an index. -/
abbrev Color := Nat

/-- Modelled from the spec: `COLOR_MAP`, the static mapping from named colors
to a fixed triple of optional wire values `(hue, saturation,
color_temperature)`, lives in `crate::requests::color`, not among the given
sources; we model any such table as a function from colors to an optional
triple, `none` standing for an absent entry. -/
abbrev ColorTable := Color → Option (Option Nat × Option Nat × Option Nat)

/-- Outcome of the `color` setter: either the process aborts (the `panic!` in
`unwrap_or_else`) or the updated builder is returned normally. -/
inductive ColorOutcome where
  | panicked (msg : String)
  | returned (p : ColorLightSetDeviceInfoParams)
deriving DecidableEq

namespace ColorLightSetDeviceInfoParams

/-- `ColorLightSetDeviceInfoParams::color` (source lines 55-65): looks the
color up in the table; a missing entry panics with the formatted message,
otherwise the triple overwrites `hue`, `saturation`, `color_temperature`. -/
def set_color (COLOR_MAP : ColorTable) (p : ColorLightSetDeviceInfoParams)
    (c : Color) : ColorOutcome :=
  match COLOR_MAP c with
  | none =>
      ColorOutcome.panicked
        ("Failed to find the color definition for " ++ toString c)
  | some (hue, saturation, color_temperature) =>
      ColorOutcome.returned
        { p with hue := hue, saturation := saturation,
                 color_temperature := color_temperature }

end ColorLightSetDeviceInfoParams

/-- `DefaultStateType` from `default_state.rs`: `Custom | LastStates`. -/
inductive DefaultStateType where
  | Custom
  | LastStates
deriving DecidableEq

/-- `DefaultBrightnessState` from `default_state.rs`: a tagged type and a
`u8` value. -/
structure DefaultBrightnessState where
  type : DefaultStateType
  value : Nat
deriving DecidableEq

/-- `DefaultPowerType` from `default_state.rs`: `AlwaysOn | LastStates`. -/
inductive DefaultPowerType where
  | AlwaysOn
  | LastStates
deriving DecidableEq

/-- The serde `Deserialize` derive on `DefaultStateType` with
`#[serde(rename_all = "snake_case")]`: the tag `"custom"` maps to `Custom`,
`"last_states"` to `LastStates`, and any other tag string is a
deserialization error (`none`). -/
def DefaultStateType.deserialize (tag : String) : Option DefaultStateType :=
  if tag = "custom" then some DefaultStateType.Custom
  else if tag = "last_states" then some DefaultStateType.LastStates
  else none

/-- The serde `Deserialize` derive on `DefaultBrightnessState`: the `type`
field is deserialized from its tag string and the `value` field is taken as
is; an unrecognized tag fails the whole deserialization. -/
def DefaultBrightnessState.deserialize (tag : String) (value : Nat) :
    Option DefaultBrightnessState :=
  (DefaultStateType.deserialize tag).map
    (fun t => { type := t, value := value })

end Tapo

namespace Tapo

namespace ColorLightSetDeviceInfoParams

/-- The color-temperature step either succeeds or returns exactly the
color-temperature range error. -/
theorem validateColorTemperature_cases (p : ColorLightSetDeviceInfoParams) :
    validateColorTemperature p = Except.ok () ∨
      validateColorTemperature p = Except.error
        (Error.Validation "color_temperature" "must be between 2500 and 6500") := by
  unfold validateColorTemperature
  cases p.color_temperature with
  | none => exact Or.inl rfl
  | some ct =>
    dsimp only
    split_ifs with hc
    · exact Or.inr rfl
    · exact Or.inl rfl

/-- Characterization of the color-temperature range error: it fires exactly
when `color_temperature` is set, the stale hue is absent-or-zero, the stale
saturation is absent-or-100, and the value is outside `2500..=6500`. -/
theorem validateColorTemperature_error_iff (p : ColorLightSetDeviceInfoParams) :
    validateColorTemperature p = Except.error
        (Error.Validation "color_temperature" "must be between 2500 and 6500") ↔
      ∃ ct, p.color_temperature = some ct ∧ p.hue.getD 0 = 0 ∧
        p.saturation.getD 100 = 100 ∧ ¬(2500 ≤ ct ∧ ct ≤ 6500) := by
  unfold validateColorTemperature
  cases h : p.color_temperature with
  | none =>
    apply iff_of_false
    · intro habs
      exact Except.noConfusion habs
    · rintro ⟨ct, hct, -⟩
      exact Option.noConfusion hct
  | some ct =>
    dsimp only
    split_ifs with hc
    · exact iff_of_true rfl ⟨ct, rfl, hc.1, hc.2.1, hc.2.2⟩
    · apply iff_of_false
      · simp
      · rintro ⟨ct', hct', h1, h2, h3⟩
        injection hct' with he
        subst he
        exact hc ⟨h1, h2, h3⟩

/-- The saturation step either returns the saturation range error or behaves
as the color-temperature step. -/
theorem validateSaturation_cases (p : ColorLightSetDeviceInfoParams) :
    validateSaturation p = Except.error
        (Error.Validation "saturation" "must be between 1 and 100") ∨
      validateSaturation p = validateColorTemperature p := by
  unfold validateSaturation
  cases p.saturation with
  | none => exact Or.inr rfl
  | some s =>
    dsimp only
    split_ifs with hc
    · exact Or.inr rfl
    · exact Or.inl rfl

/-- Characterization of the saturation range error: it fires exactly when
`saturation` is set and outside `1..=100`, whatever the other fields hold. -/
theorem validateSaturation_sat_iff (p : ColorLightSetDeviceInfoParams) :
    validateSaturation p = Except.error
        (Error.Validation "saturation" "must be between 1 and 100") ↔
      ∃ s, p.saturation = some s ∧ ¬(1 ≤ s ∧ s ≤ 100) := by
  have hctne : validateColorTemperature p ≠ Except.error
      (Error.Validation "saturation" "must be between 1 and 100") := by
    intro habs
    rcases validateColorTemperature_cases p with hp | hp <;> rw [hp] at habs <;>
      simp at habs
  unfold validateSaturation
  cases h : p.saturation with
  | none =>
    apply iff_of_false
    · exact hctne
    · rintro ⟨s, hs, -⟩
      exact Option.noConfusion hs
  | some s =>
    dsimp only
    split_ifs with hc
    · apply iff_of_false
      · exact hctne
      · rintro ⟨s', hs', hout⟩
        injection hs' with he
        subst he
        exact hout hc
    · exact iff_of_true rfl ⟨s, rfl, hc⟩

/-- When the saturation check passes, the saturation step falls through to
the color-temperature step. -/
theorem validateSaturation_pass (p : ColorLightSetDeviceInfoParams)
    (hs : ∀ s, p.saturation = some s → 1 ≤ s ∧ s ≤ 100) :
    validateSaturation p = validateColorTemperature p := by
  unfold validateSaturation
  cases h : p.saturation with
  | none => rfl
  | some s =>
    dsimp only
    rw [if_neg (not_not_intro (hs s h))]

/-- The hue step either returns the hue range error or behaves as the
saturation step. -/
theorem validateHue_cases (p : ColorLightSetDeviceInfoParams) :
    validateHue p = Except.error
        (Error.Validation "hue" "must be between 1 and 360") ∨
      validateHue p = validateSaturation p := by
  unfold validateHue
  cases p.hue with
  | none => exact Or.inr rfl
  | some hv =>
    dsimp only
    split_ifs with hc
    · exact Or.inl rfl
    · exact Or.inr rfl

/-- Characterization of the hue range error: it fires exactly when `hue` is
set, the stale color temperature is absent-or-zero, and the hue is outside
`1..=360`. -/
theorem validateHue_hue_iff (p : ColorLightSetDeviceInfoParams) :
    validateHue p = Except.error
        (Error.Validation "hue" "must be between 1 and 360") ↔
      ∃ hv, p.hue = some hv ∧ p.color_temperature.getD 0 = 0 ∧
        ¬(1 ≤ hv ∧ hv ≤ 360) := by
  have hsatne : validateSaturation p ≠ Except.error
      (Error.Validation "hue" "must be between 1 and 360") := by
    intro habs
    rcases validateSaturation_cases p with hp | hp
    · rw [hp] at habs
      simp at habs
    · rw [hp] at habs
      rcases validateColorTemperature_cases p with hq | hq <;> rw [hq] at habs <;>
        simp at habs
  unfold validateHue
  cases h : p.hue with
  | none =>
    apply iff_of_false
    · exact hsatne
    · rintro ⟨hv, hhv, -⟩
      exact Option.noConfusion hhv
  | some hv =>
    dsimp only
    split_ifs with hc
    · exact iff_of_true rfl ⟨hv, rfl, hc.1, hc.2⟩
    · apply iff_of_false
      · exact hsatne
      · rintro ⟨hv', hhv', hct, hout⟩
        injection hhv' with he
        subst he
        exact hc ⟨hct, hout⟩

/-- When the hue check passes, the hue step falls through to the saturation
step. -/
theorem validateHue_pass (p : ColorLightSetDeviceInfoParams)
    (hh : ∀ hv, p.hue = some hv → p.color_temperature.getD 0 = 0 →
      1 ≤ hv ∧ hv ≤ 360) :
    validateHue p = validateSaturation p := by
  unfold validateHue
  cases h : p.hue with
  | none => rfl
  | some hv =>
    dsimp only
    rw [if_neg (fun hc => hc.2 (hh hv h hc.1))]

/-- The brightness step either returns the brightness range error or behaves
as the hue step. -/
theorem validateBrightness_cases (p : ColorLightSetDeviceInfoParams) :
    validateBrightness p = Except.error
        (Error.Validation "brightness" "must be between 1 and 100") ∨
      validateBrightness p = validateHue p := by
  unfold validateBrightness
  cases p.brightness with
  | none => exact Or.inr rfl
  | some b =>
    dsimp only
    split_ifs with hc
    · exact Or.inr rfl
    · exact Or.inl rfl

/-- When the brightness check passes, the brightness step falls through to
the hue step. -/
theorem validateBrightness_pass (p : ColorLightSetDeviceInfoParams)
    (hb : ∀ b, p.brightness = some b → 1 ≤ b ∧ b ≤ 100) :
    validateBrightness p = validateHue p := by
  unfold validateBrightness
  cases h : p.brightness with
  | none => rfl
  | some b =>
    dsimp only
    rw [if_neg (not_not_intro (hb b h))]

/-- When at least one field is set, `validate` runs the range checks. -/
theorem validate_not_empty (p : ColorLightSetDeviceInfoParams)
    (hne : ¬(p.device_on = none ∧ p.brightness = none ∧ p.hue = none ∧
      p.saturation = none ∧ p.color_temperature = none)) :
    validate p = validateBrightness p := by
  unfold validate
  exact if_neg hne

/-- For every state in which the color temperature is set to a non-zero
value, `validate` never returns the hue range error. -/
theorem validate_hue_inert (q : ColorLightSetDeviceInfoParams) (v : Nat)
    (hct : q.color_temperature = some v) (hv : v ≠ 0) :
    validate q ≠ Except.error
      (Error.Validation "hue" "must be between 1 and 360") := by
  intro habs
  have hne : ¬(q.device_on = none ∧ q.brightness = none ∧ q.hue = none ∧
      q.saturation = none ∧ q.color_temperature = none) := by
    rintro ⟨-, -, -, -, h⟩
    rw [hct] at h
    exact Option.noConfusion h
  rw [validate_not_empty q hne] at habs
  rcases validateBrightness_cases q with hp | hp
  · rw [hp] at habs
    simp at habs
  · rw [hp] at habs
    rcases (validateHue_hue_iff q).mp habs with ⟨hv', -, hzero, -⟩
    rw [hct] at hzero
    exact hv (by simpa using hzero)

/-- For every state in which hue is set non-zero or saturation is set to a
value other than 100, `validate` never returns the color-temperature range
error. -/
theorem validate_ct_inert (q : ColorLightSetDeviceInfoParams)
    (hmode : (∃ hv, q.hue = some hv ∧ hv ≠ 0) ∨
      (∃ s, q.saturation = some s ∧ s ≠ 100)) :
    validate q ≠ Except.error
      (Error.Validation "color_temperature" "must be between 2500 and 6500") := by
  intro habs
  have hne : ¬(q.device_on = none ∧ q.brightness = none ∧ q.hue = none ∧
      q.saturation = none ∧ q.color_temperature = none) := by
    rintro ⟨-, -, h1, h2, -⟩
    rcases hmode with ⟨hv, hh, -⟩ | ⟨s, hs, -⟩
    · rw [h1] at hh
      exact Option.noConfusion hh
    · rw [h2] at hs
      exact Option.noConfusion hs
  rw [validate_not_empty q hne] at habs
  rcases validateBrightness_cases q with hp | hp
  · rw [hp] at habs
    simp at habs
  · rw [hp] at habs
    rcases validateHue_cases q with hq | hq
    · rw [hq] at habs
      simp at habs
    · rw [hq] at habs
      rcases validateSaturation_cases q with hr | hr
      · rw [hr] at habs
        simp at habs
      · rw [hr] at habs
        rcases (validateColorTemperature_error_iff q).mp habs with
          ⟨ct, -, hhue0, hsat100, -⟩
        rcases hmode with ⟨hv, hh, hv0⟩ | ⟨s, hs, hs100⟩
        · rw [hh] at hhue0
          exact hv0 (by simpa using hhue0)
        · rw [hs] at hsat100
          exact hs100 (by simpa using hsat100)

end ColorLightSetDeviceInfoParams

open ColorLightSetDeviceInfoParams

/-- C1: given that the emptiness and brightness checks passed, `validate`
returns the hue-range error (field `hue`, message `must be between 1 and
360`) if and only if `hue` is set, `color_temperature` is absent or zero, and
the hue lies outside `[1, 360]`; moreover, for every state whose color
temperature is set to a non-zero value, the hue value is never range-checked
(the hue-range error is never returned). -/
theorem claim_C1_hue_range_check (p : ColorLightSetDeviceInfoParams)
    (hne : ¬(p.device_on = none ∧ p.brightness = none ∧ p.hue = none ∧
      p.saturation = none ∧ p.color_temperature = none))
    (hbr : ∀ b, p.brightness = some b → 1 ≤ b ∧ b ≤ 100) :
    (validate p = Except.error
        (Error.Validation "hue" "must be between 1 and 360") ↔
      ∃ hv, p.hue = some hv ∧
        (p.color_temperature = none ∨ p.color_temperature = some 0) ∧
        ¬(1 ≤ hv ∧ hv ≤ 360)) ∧
    ∀ q v, q.color_temperature = some v → v ≠ 0 →
      validate q ≠ Except.error
        (Error.Validation "hue" "must be between 1 and 360") := by
  constructor
  · rw [validate_not_empty p hne, validateBrightness_pass p hbr,
      validateHue_hue_iff]
    constructor
    · rintro ⟨hv, h1, h2, h3⟩
      refine ⟨hv, h1, ?_, h3⟩
      cases hct : p.color_temperature with
      | none => exact Or.inl rfl
      | some v =>
        right
        rw [hct, Option.getD_some] at h2
        rw [h2]
    · rintro ⟨hv, h1, h2, h3⟩
      refine ⟨hv, h1, ?_, h3⟩
      rcases h2 with h2 | h2 <;> rw [h2] <;> rfl
  · exact fun q v hct hv => validate_hue_inert q v hct hv

/-- C1 witness: hue 0 with saturation 50 and no color temperature trips the
hue-range error. -/
theorem claim_C1_hue_range_check_witness :
    validate
      { device_on := none, brightness := none, hue := some 0,
        saturation := some 50, color_temperature := none } =
      Except.error (Error.Validation "hue" "must be between 1 and 360") :=
  (claim_C1_hue_range_check _ (by simp) (by simp)).1.mpr
    ⟨0, rfl, Or.inl rfl, by decide⟩

/-- C2: given that the emptiness, brightness, hue and saturation checks
passed, `validate` returns the color-temperature-range error (field
`color_temperature`, message `must be between 2500 and 6500`) if and only if
`color_temperature` is set, `hue` is absent or zero, `saturation` is absent
or 100, and the value lies outside `[2500, 6500]`; moreover, for every state
in which hue is set non-zero or saturation is set to a value other than 100,
the color-temperature value is never range-checked. -/
theorem claim_C2_color_temperature_range_check
    (p : ColorLightSetDeviceInfoParams)
    (hne : ¬(p.device_on = none ∧ p.brightness = none ∧ p.hue = none ∧
      p.saturation = none ∧ p.color_temperature = none))
    (hbr : ∀ b, p.brightness = some b → 1 ≤ b ∧ b ≤ 100)
    (hhue : ∀ hv, p.hue = some hv → p.color_temperature.getD 0 = 0 →
      1 ≤ hv ∧ hv ≤ 360)
    (hsat : ∀ s, p.saturation = some s → 1 ≤ s ∧ s ≤ 100) :
    (validate p = Except.error
        (Error.Validation "color_temperature" "must be between 2500 and 6500") ↔
      ∃ ct, p.color_temperature = some ct ∧
        (p.hue = none ∨ p.hue = some 0) ∧
        (p.saturation = none ∨ p.saturation = some 100) ∧
        ¬(2500 ≤ ct ∧ ct ≤ 6500)) ∧
    ∀ q, ((∃ hv, q.hue = some hv ∧ hv ≠ 0) ∨
        (∃ s, q.saturation = some s ∧ s ≠ 100)) →
      validate q ≠ Except.error
        (Error.Validation "color_temperature" "must be between 2500 and 6500") := by
  constructor
  · rw [validate_not_empty p hne, validateBrightness_pass p hbr,
      validateHue_pass p hhue, validateSaturation_pass p hsat,
      validateColorTemperature_error_iff]
    constructor
    · rintro ⟨ct, h1, h2, h3, h4⟩
      refine ⟨ct, h1, ?_, ?_, h4⟩
      · cases hh : p.hue with
        | none => exact Or.inl rfl
        | some hv =>
          right
          rw [hh, Option.getD_some] at h2
          rw [h2]
      · cases hs : p.saturation with
        | none => exact Or.inl rfl
        | some s =>
          right
          rw [hs, Option.getD_some] at h3
          rw [h3]
    · rintro ⟨ct, h1, h2, h3, h4⟩
      refine ⟨ct, h1, ?_, ?_, h4⟩
      · rcases h2 with h2 | h2 <;> rw [h2] <;> rfl
      · rcases h3 with h3 | h3 <;> rw [h3] <;> rfl
  · exact fun q hmode => validate_ct_inert q hmode

/-- C2 witness: a builder with only color temperature 2499 set trips the
color-temperature-range error. -/
theorem claim_C2_color_temperature_range_check_witness :
    validate
      { device_on := none, brightness := none, hue := none,
        saturation := none, color_temperature := some 2499 } =
      Except.error
        (Error.Validation "color_temperature" "must be between 2500 and 6500") :=
  (claim_C2_color_temperature_range_check _ (by simp) (by simp) (by simp)
      (by simp)).1.mpr
    ⟨2499, rfl, Or.inl rfl, Or.inl rfl, by decide⟩

/-- C3: last-call-wins between the two lighting modes: from any prior builder
state, `color_temperature(v)` leaves `hue = Some 0`, `saturation = Some 100`,
`color_temperature = Some v`, and `hue_saturation(h, s)` leaves
`hue = Some h`, `saturation = Some s`, `color_temperature = Some 0`. -/
theorem claim_C3_last_call_wins (p : ColorLightSetDeviceInfoParams)
    (v h s : Nat) :
    (set_color_temperature p v).hue = some 0 ∧
    (set_color_temperature p v).saturation = some 100 ∧
    (set_color_temperature p v).color_temperature = some v ∧
    (set_hue_saturation p h s).hue = some h ∧
    (set_hue_saturation p h s).saturation = some s ∧
    (set_hue_saturation p h s).color_temperature = some 0 :=
  ⟨rfl, rfl, rfl, rfl, rfl, rfl⟩

/-- C4: submitting a builder with all five fields unset fails with field
`DeviceInfoParams` and message `requires at least one property`, and the
capability is never invoked. -/
theorem claim_C4_empty_builder :
    send new = SendResult.validationError
        (Error.Validation "DeviceInfoParams" "requires at least one property") ∧
    ∀ payload, send new ≠ SendResult.capabilityCalled payload := by
  refine ⟨by decide, ?_⟩
  intro payload habs
  rw [(by decide : send new = SendResult.validationError
      (Error.Validation "DeviceInfoParams" "requires at least one property"))]
    at habs
  exact SendResult.noConfusion habs

/-- C5: for a builder with only brightness `v` set (`v` a `u8` value), submit
invokes the capability exactly when `v` lies in `[1, 100]`, with a payload
whose sole key is `brightness`; otherwise it returns the brightness-range
error without invoking the capability. -/
theorem claim_C5_brightness_only (v : Nat) (hv : v ≤ 255) :
    (1 ≤ v ∧ v ≤ 100 →
      send (set_brightness new v) =
        SendResult.capabilityCalled [("brightness", JsonValue.num v)]) ∧
    (¬(1 ≤ v ∧ v ≤ 100) →
      send (set_brightness new v) =
        SendResult.validationError
          (Error.Validation "brightness" "must be between 1 and 100")) := by
  constructor
  · intro hr
    simp [send, set_brightness, new, validate, validateBrightness, validateHue,
      validateSaturation, validateColorTemperature, serializeFields, optField,
      hr]
  · intro hr
    simp [send, set_brightness, new, validate, validateBrightness, hr]

/-- C5 witness: brightness 101 fails with the brightness-range error and the
capability is not invoked. -/
theorem claim_C5_brightness_only_witness :
    send (set_brightness new 101) =
      SendResult.validationError
        (Error.Validation "brightness" "must be between 1 and 100") :=
  (claim_C5_brightness_only 101 (by decide)).2 (by decide)

/-- C6: given that the emptiness, brightness and hue checks passed, a
saturation set outside `[1, 100]` makes `validate` fail with the
saturation-range error, with no condition on which lighting mode is
active. -/
theorem claim_C6_saturation_range_check (p : ColorLightSetDeviceInfoParams)
    (hne : ¬(p.device_on = none ∧ p.brightness = none ∧ p.hue = none ∧
      p.saturation = none ∧ p.color_temperature = none))
    (hbr : ∀ b, p.brightness = some b → 1 ≤ b ∧ b ≤ 100)
    (hhue : ∀ hv, p.hue = some hv → p.color_temperature.getD 0 = 0 →
      1 ≤ hv ∧ hv ≤ 360)
    (s : Nat) (hs : p.saturation = some s) (hout : ¬(1 ≤ s ∧ s ≤ 100)) :
    validate p = Except.error
      (Error.Validation "saturation" "must be between 1 and 100") := by
  rw [validate_not_empty p hne, validateBrightness_pass p hbr,
    validateHue_pass p hhue]
  exact (validateSaturation_sat_iff p).mpr ⟨s, hs, hout⟩

/-- C6 witness: hue 1 with saturation 0 trips the saturation-range error. -/
theorem claim_C6_saturation_range_check_witness :
    validate (set_hue_saturation new 1 0) =
      Except.error (Error.Validation "saturation" "must be between 1 and 100") :=
  claim_C6_saturation_range_check _ (by simp [set_hue_saturation, new])
    (by simp [set_hue_saturation, new])
    (by
      intro hv h1 h2
      simp only [set_hue_saturation, new, Option.some.injEq] at h1
      omega)
    0 rfl (by decide)

/-- C7: the encoded payload holds exactly the fields that were set, under the
keys `device_on`, `brightness`, `hue`, `saturation`, `color_temp`; unset
fields are omitted entirely; a builder with only brightness 50 set encodes to
a payload whose sole entry is the brightness key. -/
theorem claim_C7_payload_exact (p : ColorLightSetDeviceInfoParams) :
    (∀ b, ("device_on", JsonValue.bool b) ∈ serializeFields p ↔
      p.device_on = some b) ∧
    (∀ n, ("brightness", JsonValue.num n) ∈ serializeFields p ↔
      p.brightness = some n) ∧
    (∀ n, ("hue", JsonValue.num n) ∈ serializeFields p ↔ p.hue = some n) ∧
    (∀ n, ("saturation", JsonValue.num n) ∈ serializeFields p ↔
      p.saturation = some n) ∧
    (∀ n, ("color_temp", JsonValue.num n) ∈ serializeFields p ↔
      p.color_temperature = some n) ∧
    (∀ kv ∈ serializeFields p,
      kv.1 = "device_on" ∨ kv.1 = "brightness" ∨ kv.1 = "hue" ∨
        kv.1 = "saturation" ∨ kv.1 = "color_temp") ∧
    serializeFields (set_brightness new 50) =
      [("brightness", JsonValue.num 50)] := by
  obtain ⟨d, b, h, s, c⟩ := p
  cases d <;> cases b <;> cases h <;> cases s <;> cases c <;>
    simp [serializeFields, optField, set_brightness, new, eq_comm]

/-- C8: the `color` setter panics exactly when the color has no entry in the
lookup table; when an entry exists, its triple overwrites `hue`,
`saturation` and `color_temperature` and the builder is returned normally. -/
theorem claim_C8_color_lookup (COLOR_MAP : ColorTable)
    (p : ColorLightSetDeviceInfoParams) (c : Color) :
    (COLOR_MAP c = none →
      set_color COLOR_MAP p c = ColorOutcome.panicked
        ("Failed to find the color definition for " ++ toString c)) ∧
    ∀ hue saturation color_temperature,
      COLOR_MAP c = some (hue, saturation, color_temperature) →
        set_color COLOR_MAP p c = ColorOutcome.returned
          { p with hue := hue, saturation := saturation,
                   color_temperature := color_temperature } := by
  constructor
  · intro hnone
    simp [set_color, hnone]
  · intro hue saturation color_temperature hsome
    simp [set_color, hsome]

/-- C8 witness: with an empty table, the setter panics on color 0. -/
theorem claim_C8_color_lookup_witness :
    set_color (fun _ => none) new 0 =
      ColorOutcome.panicked
        ("Failed to find the color definition for " ++ toString 0) :=
  (claim_C8_color_lookup (fun _ => none) new 0).1 rfl

/-- C9: deserializing the tag `custom` with value 42 yields
`DefaultBrightnessState` with type `Custom` and value 42; any tag outside
the closed set fails deserialization with `none`. -/
theorem claim_C9_default_state_tags (tag : String) (value : Nat)
    (h1 : tag ≠ "custom") (h2 : tag ≠ "last_states") :
    DefaultBrightnessState.deserialize "custom" 42 =
      some { type := DefaultStateType.Custom, value := 42 } ∧
    DefaultBrightnessState.deserialize tag value = none := by
  refine ⟨rfl, ?_⟩
  unfold DefaultBrightnessState.deserialize DefaultStateType.deserialize
  rw [if_neg h1, if_neg h2]
  rfl

/-- C9 witness: the unknown tag `bogus` fails deserialization. -/
theorem claim_C9_default_state_tags_witness :
    DefaultBrightnessState.deserialize "bogus" 7 = none :=
  (claim_C9_default_state_tags "bogus" 7 (by decide) (by decide)).2

/-- C10: submitting a fresh builder right after `color_temperature(0)` fails
with the hue-range error (field `hue`), because the setter wrote
`hue = Some 0` and the zero temperature re-activates the hue check; the
capability is not invoked. -/
theorem claim_C10_zero_color_temperature_fails_hue :
    send (set_color_temperature new 0) =
      SendResult.validationError
        (Error.Validation "hue" "must be between 1 and 360") ∧
    ∀ payload, send (set_color_temperature new 0) ≠
      SendResult.capabilityCalled payload := by
  refine ⟨by decide, ?_⟩
  intro payload habs
  rw [(by decide : send (set_color_temperature new 0) =
      SendResult.validationError
        (Error.Validation "hue" "must be between 1 and 360"))] at habs
  exact SendResult.noConfusion habs

end Tapo
